import Mathlib

/-!
Shallow embedding of `weather_helpers/util.py` (OpenVoiceOS skill-weather).

The module resolves a free-text location into a normalized place record via
a forward geocode, then either a reverse geocode or a details lookup, and
attaches a timezone.  Network responses are injected through a `Network`
record, and every outbound request is recorded in an `ApiCall` trace so that
statements such as "the details endpoint is never hit on this path" are
expressible.  JSON values read with `.get(...)` are `Option String` (absent
or JSON null maps to `none`); keys read by subscript are required fields.
Python exceptions surface as `Except` errors.
-/

namespace WeatherSkill

/-- Python truthiness of an optional string: `None` and the empty string are
falsy, every other string is truthy. -/
def truthy : Option String → Bool
  | none => false
  | some s => !(s == "")

/-- Python `a or b` where both operands are optional strings. -/
def pyOr (a b : Option String) : Option String :=
  if truthy a then a else b

/-- Python `a or b` where the right operand is a plain string, yielding a
plain string (the common shape of the fallback chains ending in a literal). -/
def pyOrD (a : Option String) (b : String) : String :=
  match a with
  | none => b
  | some s => if s == "" then b else s

/-- Python `a or b` for plain strings. -/
def pyStrOr (a b : String) : String :=
  if a == "" then b else a

/-- Python `str.upper()`: uppercase every character (character-wise map, as
`str.upper` acts on the ASCII codes appearing in this data). -/
def pyUpper (s : String) : String :=
  ⟨s.data.map Char.toUpper⟩

/-- First truthy value of a list of optional strings, empty string when none
is truthy.  This is the specification-side rendering of a fallback chain
"first non-empty of ...", used to compare against the embedded code. -/
def first_nonempty : List (Option String) → String
  | [] => ""
  | x :: xs => if truthy x then x.getD "" else first_nonempty xs

/-- One entry of the forward-search (`/search`) response list.  `lat`, `lon`,
`type` and `class` are read with `.get`; `osm_id`, `osm_type` and
`display_name` are read by subscript, hence required. -/
structure ForwardMatch where
  lat : Option String := none
  lon : Option String := none
  osm_id : String := ""
  osm_type : String := ""
  display_name : String := ""
  type_tag : Option String := none
  class_tag : Option String := none
deriving DecidableEq

/-- The `addresstags` object of a details response (`tags` in the source). -/
structure AddressTags where
  country : Option String := none
  postcode : Option String := none
  state_code : Option String := none
  state : Option String := none
deriving DecidableEq

/-- The `extratags` object of a details response. -/
structure DetailsExtratags where
  linked_place : Option String := none
  iso3166_alpha2 : Option String := none
deriving DecidableEq

/-- The `names` object of a details response. -/
structure DetailsNames where
  name : Option String := none
  official_name : Option String := none
deriving DecidableEq

/-- The details (`/details.php`) response.  `addresstags` is `none` when the
upstream sends an empty list instead of a dict (the source then substitutes
an empty dict via `or`).  Keys read by subscript with possibly-null values
are `Option String`. -/
structure DetailsResponse where
  addresstags : Option AddressTags := none
  extratags : DetailsExtratags := {}
  category : Option String := none
  localname : Option String := none
  names : DetailsNames := {}
  country_code : Option String := none
  calculated_postcode : Option String := none
deriving DecidableEq

/-- The `address` object of a reverse (`/reverse`) response. -/
structure ReverseAddress where
  postcode : Option String := none
  city : Option String := none
  village : Option String := none
  town : Option String := none
  hamlet : Option String := none
  county : Option String := none
  state_code : Option String := none
  iso3166_lvl4 : Option String := none
  iso3166_lvl6 : Option String := none
  state : Option String := none
  country_code : Option String := none
  country : Option String := none
deriving DecidableEq

/-- The reverse (`/reverse`) response.  `display_name` and `address` are
required (the source subscripts the former and calls `.get` on the latter
unconditionally); `lat` and `lon` are read with `.get`. -/
structure ReverseResponse where
  display_name : String := ""
  address : ReverseAddress := {}
  lat : Option String := none
  lon : Option String := none
deriving DecidableEq

/-- The country level of the normalized record. -/
structure CountryInfo where
  code : String
  name : String
deriving DecidableEq

/-- The state level of the normalized record; `name` can be absent because the
details path stores `tags.get("state")` there. -/
structure StateInfo where
  code : String
  name : Option String
  country : CountryInfo
deriving DecidableEq

/-- The city level of the normalized record. -/
structure CityInfo where
  code : String
  name : String
  state : StateInfo
deriving DecidableEq

/-- A coordinate as carried by the record: the raw optional strings from the
upstream JSON, not parsed numbers. -/
structure Coordinate where
  latitude : Option String
  longitude : Option String
deriving DecidableEq

/-- A timezone: human-readable name and IANA code. -/
structure TimezoneInfo where
  name : String
  code : String
deriving DecidableEq

/-- The canonical location record built by the pipeline.  `timezone := none`
models the dict lacking a `"timezone"` key; the guard
`if "timezone" not in location` is the `Option.isNone` test. -/
structure LocationRecord where
  address : String
  city : CityInfo
  coordinate : Coordinate
  timezone : Option TimezoneInfo
deriving DecidableEq

/-- One outbound HTTP request made by the pipeline. -/
inductive ApiCall where
  | search (q : String)
  | details (osmid : String) (osmtype : String)
  | reverse (lat lon : Option String)
deriving DecidableEq

/-- The errors the pipeline can signal: `indexError` models Python
`IndexError` (subscripting an empty list or string), `keyError` models
reading a missing dict key, and `locationNotFound` is the domain error
`LocationNotFoundError`. -/
inductive GeoError where
  | indexError
  | keyError
  | locationNotFound (location : String)
deriving DecidableEq

/-- The injected network: what each endpoint would answer. -/
structure Network where
  search : String → List ForwardMatch
  details : String → String → DetailsResponse
  reverse : Option String → Option String → ReverseResponse

/-- The timezone resolver as seen by the pipeline: `_get_timezone` called
with keyword arguments `lat` and `lon` (here positionally, latitude first). -/
abbrev TzFn := Option String → Option String → TimezoneInfo

/-- Embedding of `get_reverse_geolocation(lat, lon)` (the 600-second cache
decorator is modelled separately): call the reverse endpoint, map the flat
`address` object through the fallback chains, echo upstream lat/lon falling
back to the inputs, and attach a timezone when the key is absent.  Returns
the record together with the requests issued. -/
def get_reverse_geolocation (lat lon : Option String) (resp : ReverseResponse)
    (tz : TzFn) : LocationRecord × List ApiCall :=
  let address := resp.address
  let location : LocationRecord :=
    { address := resp.display_name
      city :=
        { code := pyOrD address.postcode ""
          name := pyOrD address.city (pyOrD address.village (pyOrD address.town
                    (pyOrD address.hamlet (pyOrD address.county ""))))
          state :=
            { code := pyOrD address.state_code (pyOrD address.iso3166_lvl4
                        (pyOrD address.iso3166_lvl6 ""))
              name := some (pyOrD address.state (pyOrD address.county ""))
              country :=
                { code := pyStrOr (pyUpper (address.country_code.getD "")) ""
                  name := pyOrD address.country "" } } }
      coordinate :=
        { latitude := pyOr resp.lat lat
          longitude := pyOr resp.lon lon }
      timezone := none }
  let location :=
    if location.timezone.isNone then
      { location with timezone := some (tz (pyOr resp.lat lat) (pyOr resp.lon lon)) }
    else location
  (location, [ApiCall.reverse lat lon])

/-- The record built by the details branch of `_get_geolocation` (from
`tags = details.get("addresstags") or {}` through the timezone attachment),
extracted as a named definition: `data` is the forward match and `details`
the details response; `lat` and `lon` are the match's values, which on this
branch are the falsy values that selected it. -/
def details_record (data : ForwardMatch) (details : DetailsResponse) (tz : TzFn) :
    LocationRecord :=
  let lat := data.lat
  let lon := data.lon
  let tags := details.addresstags.getD {}
  let place_type := pyOr details.extratags.linked_place (pyOr details.category
                      (pyOr data.type_tag data.class_tag))
  let name := pyOrD details.localname (pyOrD details.names.name
                (pyOrD details.names.official_name data.display_name))
  let cc := pyOrD details.country_code (pyOrD tags.country
              (pyOrD details.extratags.iso3166_alpha2 ""))
  let record : LocationRecord :=
    { address := data.display_name
      city :=
        { code := pyOrD tags.postcode (pyOrD details.calculated_postcode "")
          name := if place_type = some "city" then name else ""
          state :=
            { code := pyOrD tags.state_code (pyOrD details.calculated_postcode "")
              name := if place_type = some "state" then some name else tags.state
              country :=
                { code := pyUpper cc
                  name := if place_type = some "country" then name else "" } } }
      coordinate := { latitude := lat, longitude := lon }
      timezone := none }
  if record.timezone.isNone then
    { record with timezone := some (tz lat lon) }
  else record

/-- Embedding of `_get_geolocation(location)` (the 600-second cache decorator
is modelled separately).  Forward-search the text; `.json()[0]` on an empty
result list raises `IndexError`.  When the best match has truthy `lat` and
`lon`, delegate to the reverse path with exactly those values; otherwise query
the details endpoint keyed by `osm_id` and the uppercased first letter of
`osm_type` (subscripting an empty `osm_type` raises `IndexError`) and build
the record from the details fallback chains (`details_record`).  The result
type is `Option LocationRecord` because the caller checks the Python value
against `None`; no code path actually produces `none`. -/
def _get_geolocation (location : String) (net : Network) (tz : TzFn) :
    Except GeoError (Option LocationRecord) × List ApiCall :=
  match net.search location with
  | [] => (Except.error GeoError.indexError, [ApiCall.search location])
  | data :: _ =>
    let lat := data.lat
    let lon := data.lon
    if truthy lat && truthy lon then
      let r := get_reverse_geolocation lat lon (net.reverse lat lon) tz
      (Except.ok (some r.1), ApiCall.search location :: r.2)
    else if data.osm_type = "" then
      (Except.error GeoError.indexError, [ApiCall.search location])
    else
      let osmtype := pyUpper (data.osm_type.take 1)
      (Except.ok (some (details_record data (net.details data.osm_id osmtype) tz)),
       [ApiCall.search location, ApiCall.details data.osm_id osmtype])

/-- The flattened client-facing result built by `get_geolocation`. -/
structure SimpleResult where
  city : String
  region : Option String
  country : String
  latitude : Option String
  longitude : Option String
  timezone : String
deriving DecidableEq

/-- Embedding of the facade `get_geolocation(location)`: run the pipeline,
raise `LocationNotFoundError` when it returned `None`, and flatten the record;
reading `geolocation["timezone"]["code"]` on a record without the key would
raise `KeyError`. -/
def get_geolocation (location : String) (net : Network) (tz : TzFn) :
    Except GeoError SimpleResult × List ApiCall :=
  let r := _get_geolocation location net tz
  let calls := r.2
  match r.1 with
  | Except.error e => (Except.error e, calls)
  | Except.ok none => (Except.error (GeoError.locationNotFound location), calls)
  | Except.ok (some geolocation) =>
    match geolocation.timezone with
    | none => (Except.error GeoError.keyError, calls)
    | some tzinfo =>
      (Except.ok
        { city := geolocation.city.name
          region := geolocation.city.state.name
          country := geolocation.city.state.country.name
          latitude := geolocation.coordinate.latitude
          longitude := geolocation.coordinate.longitude
          timezone := tzinfo.code }, calls)

/-- The slice of the configuration the module reads:
`location.coordinate.{latitude,longitude}` and `location.timezone`. -/
structure LocationConfig where
  coordinate_latitude : Option String := none
  coordinate_longitude : Option String := none
  timezone : Option TimezoneInfo := none

/-- Errors the timezone helper can raise: `typeError` models `float(None)`,
`attributeError` models `None.replace` when the finder knows no zone. -/
inductive TzError where
  | typeError
  | attributeError
deriving DecidableEq

/-- Embedding of `_get_lat_lon(**kwargs)`: take the keyword coordinates, and
when either is falsy replace both by the configured coordinate. -/
def _get_lat_lon (cfg : LocationConfig) (lat lon : Option String) :
    Option String × Option String :=
  if !(truthy lat) || !(truthy lon) then
    (cfg.coordinate_latitude, cfg.coordinate_longitude)
  else
    (lat, lon)

/-- Embedding of `_get_timezone(**kwargs)`.  `finderAvailable` is the truth
of the `TimezoneFinder` import; `finder` abstracts
`TimezoneFinder().timezone_at(lng, lat)` (its arguments in that order, and
coordinate strings stand for the parsed floats).  When the finder is
unavailable the configured timezone is returned, defaulting to UTC. -/
def _get_timezone (finderAvailable : Bool) (finder : String → String → Option String)
    (cfg : LocationConfig) (lat lon : Option String) : Except TzError TimezoneInfo :=
  if finderAvailable then
    match _get_lat_lon cfg lat lon with
    | (some lat, some lon) =>
      match finder lon lat with
      | none => Except.error TzError.attributeError
      | some tzid => Except.ok { name := tzid.replace "/" " ", code := tzid }
    | _ => Except.error TzError.typeError
  else
    Except.ok (cfg.timezone.getD { name := "UTC", code := "UTC" })

/-- Embedding of `get_time_period(intent_datetime)`: the classification
depends only on `intent_datetime.time().hour`, which is the argument here. -/
def get_time_period (hour : Nat) : String :=
  if 1 ≤ hour ∧ hour < 5 then "early morning"
  else if 5 ≤ hour ∧ hour < 12 then "morning"
  else if 12 ≤ hour ∧ hour < 17 then "afternoon"
  else if 17 ≤ hour ∧ hour < 20 then "evening"
  else "overnight"

/-- Embedding of `chunk_list(it, size)`: repeatedly take `size`-element
slices until the empty slice appears (Python tuples become lists).  With
`size = 0` the very first slice is empty, so the result is empty. -/
def chunk_list (it : List α) (size : Nat) : List (List α) :=
  if size = 0 then []
  else if h : it.isEmpty then []
  else it.take size :: chunk_list (it.drop size) size
termination_by it.length
decreasing_by
  simp only [List.length_drop]
  have hne : it ≠ [] := by
    intro he
    subst he
    simp at h
  have : 0 < it.length := List.length_pos.mpr hne
  omega

/-- Modelled from the spec: the `timed_lru_cache(seconds=600)` decorator on
`_get_geolocation` and `get_reverse_geolocation` comes from the external
`ovos_utils` package, whose implementation is not among this repository's
sources.  The specification describes it as a pure time-boxed cache keyed by
the input arguments: one entry per distinct input tuple, each entry
time-stamped at insertion and valid for 600 seconds of wall-clock time from
insertion (not from last access), expired entries being treated as absent and
recomputed. -/
structure TTLCache (κ α : Type) where
  entries : List (κ × α × Nat)

/-- Lookup in the modelled cache at wall-clock time `now`: an entry is
visible while `now` is within 600 seconds of its insertion time. -/
def TTLCache.lookup [DecidableEq κ] (c : TTLCache κ α) (now : Nat) (k : κ) :
    Option α :=
  match c.entries.find? (fun e => decide (e.1 = k) && decide (now < e.2.2 + 600)) with
  | some e => some e.2.1
  | none => none

/-- A call through the modelled cache: on a hit return the stored value and
leave the cache unchanged; on a miss invoke the underlying function, store
the result stamped with `now`, and report that the underlying function ran
(the returned `Bool`, i.e. whether a network call happened). -/
def cachedCall [DecidableEq κ] (f : κ → α) (c : TTLCache κ α) (now : Nat)
    (k : κ) : α × TTLCache κ α × Bool :=
  match c.lookup now k with
  | some v => (v, c, false)
  | none => (f k, ⟨(k, f k, now) :: c.entries⟩, true)

/-- Country-code precedence in the order the specification states it:
address tags' country first, then the details country_code, then the
ISO3166-1:alpha2 extra tag, uppercased.  Kept for comparison against the
embedded code, which uses a different order. -/
def spec_country_code (tagsCountry detailsCC isoTag : Option String) : String :=
  pyUpper (pyOrD tagsCountry (pyOrD detailsCC (pyOrD isoTag "")))

/-- Country-code precedence as the code implements it: details country_code
first, then address tags' country, then the ISO3166-1:alpha2 extra tag,
uppercased. -/
def code_country_code (detailsCC tagsCountry isoTag : Option String) : String :=
  pyUpper (pyOrD detailsCC (pyOrD tagsCountry (pyOrD isoTag "")))

/-- A constant timezone resolver used for concrete evaluations. -/
def tzC : TzFn := fun _ _ => { name := "UTC", code := "UTC" }

/-- A network whose forward search returns no match. -/
def netEmpty : Network where
  search := fun _ => []
  details := fun _ _ => {}
  reverse := fun _ _ => {}

/-- A forward match carrying a usable coordinate. -/
def matchWithCoord : ForwardMatch :=
  { lat := some "39.1", lon := some "-94.6", osm_id := "130", osm_type := "relation",
    display_name := "Kansas City, Missouri, United States" }

/-- A forward match lacking a coordinate (details path). -/
def matchNoCoord : ForwardMatch :=
  { lat := none, lon := none, osm_id := "62422", osm_type := "relation",
    display_name := "Berlin, Deutschland" }

/-- A details response whose address tags and country_code disagree on the
country (used to separate the two precedence orders). -/
def detailsConflict : DetailsResponse :=
  { addresstags := some { country := some "de" },
    country_code := some "fr",
    localname := some "Berlin",
    category := some "boundary" }

/-- A simple reverse response. -/
def reverseSample : ReverseResponse :=
  { display_name := "Kansas City, Jackson County, Missouri, United States",
    address := { city := some "Kansas City", state := some "Missouri",
                 country := some "United States", country_code := some "us",
                 postcode := some "64106" },
    lat := some "39.0997", lon := some "-94.5786" }

/-- A network that finds a coordinate-bearing match and answers the reverse
endpoint with `reverseSample`. -/
def netCoord : Network where
  search := fun _ => [matchWithCoord]
  details := fun _ _ => {}
  reverse := fun _ _ => reverseSample

/-- A network that finds a coordinate-free match and answers the details
endpoint with `detailsConflict`. -/
def netDetails : Network where
  search := fun _ => [matchNoCoord]
  details := fun _ _ => detailsConflict
  reverse := fun _ _ => {}

/-! Helper lemmas shared by the claim theorems. -/

/-- Unfolding a fallback chain one step. -/
theorem first_nonempty_cons (x : Option String) (xs : List (Option String)) :
    first_nonempty (x :: xs) = pyOrD x (first_nonempty xs) := by
  cases x with
  | none => simp [first_nonempty, pyOrD, truthy]
  | some s =>
    by_cases hs : s = ""
    · subst hs
      simp [first_nonempty, pyOrD, truthy]
    · simp [first_nonempty, pyOrD, truthy, hs]

/-- Branch equation: an empty forward-search result yields `IndexError` after
the single search request. -/
theorem _get_geolocation_nil (loc : String) (net : Network) (tz : TzFn)
    (h : net.search loc = []) :
    _get_geolocation loc net tz =
      (Except.error GeoError.indexError, [ApiCall.search loc]) := by
  simp only [_get_geolocation, h]

/-- Branch equation: a coordinate-bearing match delegates to the reverse
path with exactly the match's `lat` and `lon`. -/
theorem _get_geolocation_coord (loc : String) (net : Network) (tz : TzFn)
    (data : ForwardMatch) (rest : List ForwardMatch)
    (h : net.search loc = data :: rest)
    (hcoord : (truthy data.lat && truthy data.lon) = true) :
    _get_geolocation loc net tz =
      (Except.ok (some (get_reverse_geolocation data.lat data.lon
          (net.reverse data.lat data.lon) tz).1),
       ApiCall.search loc :: (get_reverse_geolocation data.lat data.lon
          (net.reverse data.lat data.lon) tz).2) := by
  simp only [_get_geolocation, h]
  rw [if_pos hcoord]

/-- Branch equation: a coordinate-free match with empty `osm_type` raises
`IndexError` when subscripting `osm_type[0]`. -/
theorem _get_geolocation_empty_osm_type (loc : String) (net : Network) (tz : TzFn)
    (data : ForwardMatch) (rest : List ForwardMatch)
    (h : net.search loc = data :: rest)
    (hcoord : ¬ (truthy data.lat && truthy data.lon) = true)
    (htyp : data.osm_type = "") :
    _get_geolocation loc net tz =
      (Except.error GeoError.indexError, [ApiCall.search loc]) := by
  simp only [_get_geolocation, h]
  rw [if_neg hcoord, if_pos htyp]

/-- Branch equation: a coordinate-free match takes the details path keyed by
its `osm_id` and the uppercased first letter of its `osm_type`. -/
theorem _get_geolocation_details (loc : String) (net : Network) (tz : TzFn)
    (data : ForwardMatch) (rest : List ForwardMatch)
    (h : net.search loc = data :: rest)
    (hcoord : ¬ (truthy data.lat && truthy data.lon) = true)
    (htyp : data.osm_type ≠ "") :
    _get_geolocation loc net tz =
      (Except.ok (some (details_record data
          (net.details data.osm_id (pyUpper (data.osm_type.take 1))) tz)),
       [ApiCall.search loc,
        ApiCall.details data.osm_id (pyUpper (data.osm_type.take 1))]) := by
  simp only [_get_geolocation, h]
  rw [if_neg hcoord, if_neg htyp]

/-- A details-path record's timezone is attached from the match's own lat
and lon. -/
theorem details_record_timezone (data : ForwardMatch) (details : DetailsResponse)
    (tz : TzFn) :
    (details_record data details tz).timezone = some (tz data.lat data.lon) := rfl

/-- A details-path record's country code follows the code's precedence. -/
theorem details_record_country_code (data : ForwardMatch) (details : DetailsResponse)
    (tz : TzFn) :
    (details_record data details tz).city.state.country.code =
      code_country_code details.country_code (details.addresstags.getD {}).country
        details.extratags.iso3166_alpha2 := rfl

/-- A reverse-path record's timezone is attached from the echoed coordinate. -/
theorem reverse_record_timezone (lat lon : Option String) (resp : ReverseResponse)
    (tz : TzFn) :
    (get_reverse_geolocation lat lon resp tz).1.timezone =
      some (tz (pyOr resp.lat lat) (pyOr resp.lon lon)) := rfl

/-- The reverse path issues exactly one reverse request, with its inputs. -/
theorem reverse_calls (lat lon : Option String) (resp : ReverseResponse)
    (tz : TzFn) :
    (get_reverse_geolocation lat lon resp tz).2 = [ApiCall.reverse lat lon] := rfl

/-- Every outcome of the pipeline is either the empty-result / empty-osm-type
`IndexError` or a record whose timezone key is present; in particular the
Python value `None` is never returned. -/
theorem _get_geolocation_cases (loc : String) (net : Network) (tz : TzFn) :
    (_get_geolocation loc net tz).1 = Except.error GeoError.indexError ∨
    ∃ r, (_get_geolocation loc net tz).1 = Except.ok (some r) ∧
      r.timezone.isSome = true := by
  cases hsearch : net.search loc with
  | nil =>
    left
    rw [_get_geolocation_nil loc net tz hsearch]
  | cons data rest =>
    by_cases hcoord : (truthy data.lat && truthy data.lon) = true
    · right
      refine ⟨(get_reverse_geolocation data.lat data.lon
        (net.reverse data.lat data.lon) tz).1, ?_, ?_⟩
      · rw [_get_geolocation_coord loc net tz data rest hsearch hcoord]
      · rw [reverse_record_timezone]
        rfl
    · by_cases htyp : data.osm_type = ""
      · left
        rw [_get_geolocation_empty_osm_type loc net tz data rest hsearch hcoord htyp]
      · right
        refine ⟨details_record data
          (net.details data.osm_id (pyUpper (data.osm_type.take 1))) tz, ?_, ?_⟩
        · rw [_get_geolocation_details loc net tz data rest hsearch hcoord htyp]
        · rw [details_record_timezone]
          rfl

/-- C1 (code bug): with the forward search returning an empty list, the
pipeline fails with `IndexError` (from `.json()[0]`), not with
`LocationNotFoundError` as the claim and the facade docstring state: the
`is None` check in `get_geolocation` is dead code. -/
theorem c1_empty_search_raises_index_error :
    (get_geolocation "Kansas City" netEmpty tzC).1 = Except.error GeoError.indexError ∧
    ∀ l, (get_geolocation "Kansas City" netEmpty tzC).1 ≠
      Except.error (GeoError.locationNotFound l) := by
  refine ⟨rfl, ?_⟩
  intro l h
  rw [show (get_geolocation "Kansas City" netEmpty tzC).1 =
    Except.error GeoError.indexError from rfl] at h
  simp at h

/-- C2: when the best forward match has truthy `lat` and `lon`, the pipeline
issues exactly the search request followed by a reverse request carrying
those very values, and never a details request; when either coordinate is
falsy, it issues exactly the search request followed by a details request
keyed by the match's `osm_id` and the uppercased first letter of its
`osm_type`, and never a reverse request. -/
theorem c2_dispatch_reverse_or_details (loc : String) (net : Network) (tz : TzFn)
    (data : ForwardMatch) (rest : List ForwardMatch)
    (h : net.search loc = data :: rest) :
    ((truthy data.lat && truthy data.lon) = true →
      (_get_geolocation loc net tz).2 =
        [ApiCall.search loc, ApiCall.reverse data.lat data.lon] ∧
      ∀ i t, ¬ ApiCall.details i t ∈ (_get_geolocation loc net tz).2) ∧
    (¬ (truthy data.lat && truthy data.lon) = true → data.osm_type ≠ "" →
      (_get_geolocation loc net tz).2 =
        [ApiCall.search loc, ApiCall.details data.osm_id (pyUpper (data.osm_type.take 1))] ∧
      ∀ la lo, ¬ ApiCall.reverse la lo ∈ (_get_geolocation loc net tz).2) := by
  constructor
  · intro hcoord
    have h2 : (_get_geolocation loc net tz).2 =
        [ApiCall.search loc, ApiCall.reverse data.lat data.lon] := by
      rw [_get_geolocation_coord loc net tz data rest h hcoord]
      rw [show (Except.ok (some (get_reverse_geolocation data.lat data.lon
          (net.reverse data.lat data.lon) tz).1),
        ApiCall.search loc :: (get_reverse_geolocation data.lat data.lon
          (net.reverse data.lat data.lon) tz).2).2 =
        ApiCall.search loc :: (get_reverse_geolocation data.lat data.lon
          (net.reverse data.lat data.lon) tz).2 from rfl]
      rw [reverse_calls]
    refine ⟨h2, ?_⟩
    intro i t hmem
    rw [h2] at hmem
    simp at hmem
  · intro hcoord htyp
    have h2 : (_get_geolocation loc net tz).2 =
        [ApiCall.search loc, ApiCall.details data.osm_id (pyUpper (data.osm_type.take 1))] := by
      rw [_get_geolocation_details loc net tz data rest h hcoord htyp]
    refine ⟨h2, ?_⟩
    intro la lo hmem
    rw [h2] at hmem
    simp at hmem

/-- C2 witness: both branches at concrete inputs. -/
theorem c2_dispatch_witness :
    (_get_geolocation "Kansas City" netCoord tzC).2 =
      [ApiCall.search "Kansas City",
       ApiCall.reverse matchWithCoord.lat matchWithCoord.lon] ∧
    (_get_geolocation "Berlin" netDetails tzC).2 =
      [ApiCall.search "Berlin",
       ApiCall.details matchNoCoord.osm_id (pyUpper (matchNoCoord.osm_type.take 1))] :=
  ⟨((c2_dispatch_reverse_or_details "Kansas City" netCoord tzC matchWithCoord [] rfl).1
      (by decide)).1,
   ((c2_dispatch_reverse_or_details "Berlin" netDetails tzC matchNoCoord [] rfl).2
      (by decide) (by decide)).1⟩

/-- C3 counterexample: with address tags reporting country `"de"` while the
details response's country_code is `"fr"`, the code resolves `"FR"`, not the
`"DE"` demanded by the claim's precedence order (address tags first). -/
theorem c3_spec_order_counterexample :
    ∃ r, (_get_geolocation "Berlin" netDetails tzC).1 = Except.ok (some r) ∧
      r.city.state.country.code = "FR" ∧
      spec_country_code (some "de") (some "fr") none = "DE" ∧
      r.city.state.country.code ≠ spec_country_code (some "de") (some "fr") none := by
  refine ⟨details_record matchNoCoord detailsConflict tzC, ?_, ?_, ?_, ?_⟩
  · rw [_get_geolocation_details "Berlin" netDetails tzC matchNoCoord [] rfl
      (by decide) (by decide)]
    rfl
  · decide
  · decide
  · decide

/-- C3 (amended): in the details path the resolved country code is the first
non-empty of, in this precedence order, the details response's country_code,
then the address tags' country field, then the details ISO3166-1:alpha2 extra
tag, uppercased (empty string when all three are absent). -/
theorem c3_country_code_precedence (loc : String) (net : Network) (tz : TzFn)
    (data : ForwardMatch) (rest : List ForwardMatch)
    (h : net.search loc = data :: rest)
    (hcoord : ¬ (truthy data.lat && truthy data.lon) = true)
    (htyp : data.osm_type ≠ "") :
    ∃ r, (_get_geolocation loc net tz).1 = Except.ok (some r) ∧
      r.city.state.country.code =
        code_country_code
          (net.details data.osm_id (pyUpper (data.osm_type.take 1))).country_code
          ((net.details data.osm_id (pyUpper (data.osm_type.take 1))).addresstags.getD {}).country
          (net.details data.osm_id (pyUpper (data.osm_type.take 1))).extratags.iso3166_alpha2 := by
  refine ⟨details_record data
    (net.details data.osm_id (pyUpper (data.osm_type.take 1))) tz, ?_, ?_⟩
  · rw [_get_geolocation_details loc net tz data rest h hcoord htyp]
  · rw [details_record_country_code]

/-- C3 witness: the amended precedence at a concrete input. -/
theorem c3_country_code_witness :
    ∃ r, (_get_geolocation "Berlin" netDetails tzC).1 = Except.ok (some r) ∧
      r.city.state.country.code =
        code_country_code
          (netDetails.details matchNoCoord.osm_id (pyUpper (matchNoCoord.osm_type.take 1))).country_code
          ((netDetails.details matchNoCoord.osm_id (pyUpper (matchNoCoord.osm_type.take 1))).addresstags.getD {}).country
          (netDetails.details matchNoCoord.osm_id (pyUpper (matchNoCoord.osm_type.take 1))).extratags.iso3166_alpha2 :=
  c3_country_code_precedence "Berlin" netDetails tzC matchNoCoord [] rfl
    (by decide) (by decide)

/-- C10: on the details path the returned record's coordinate is exactly the
forward match's `lat` and `lon` (never values from the details response),
those values are not both truthy (that is what selected this path), and the
timezone lookup is invoked with exactly those values. -/
theorem c10_details_path_coordinate (loc : String) (net : Network) (tz : TzFn)
    (data : ForwardMatch) (rest : List ForwardMatch)
    (h : net.search loc = data :: rest)
    (hcoord : ¬ (truthy data.lat && truthy data.lon) = true)
    (htyp : data.osm_type ≠ "") :
    ∃ r, (_get_geolocation loc net tz).1 = Except.ok (some r) ∧
      r.coordinate.latitude = data.lat ∧
      r.coordinate.longitude = data.lon ∧
      r.timezone = some (tz data.lat data.lon) ∧
      ¬ (truthy data.lat = true ∧ truthy data.lon = true) := by
  refine ⟨details_record data
    (net.details data.osm_id (pyUpper (data.osm_type.take 1))) tz, ?_, rfl, rfl, ?_, ?_⟩
  · rw [_get_geolocation_details loc net tz data rest h hcoord htyp]
  · rw [details_record_timezone]
  · intro hboth
    exact hcoord (by simp [hboth.1, hboth.2])

/-- C10 witness: the details-path coordinate pass-through at a concrete
input. -/
theorem c10_details_path_witness :
    ∃ r, (_get_geolocation "Berlin" netDetails tzC).1 = Except.ok (some r) ∧
      r.coordinate.latitude = matchNoCoord.lat ∧
      r.coordinate.longitude = matchNoCoord.lon ∧
      r.timezone = some (tzC matchNoCoord.lat matchNoCoord.lon) ∧
      ¬ (truthy matchNoCoord.lat = true ∧ truthy matchNoCoord.lon = true) :=
  c10_details_path_coordinate "Berlin" netDetails tzC matchNoCoord [] rfl
    (by decide) (by decide)

/-- C4: for every reverse-geocode response the record's city name is the
first non-empty of the address fields city, village, town, hamlet, county
(empty when all are absent); in particular an address carrying only
county = X yields city name X. -/
theorem c4_reverse_city_name_fallback :
    (∀ (lat lon : Option String) (resp : ReverseResponse) (tz : TzFn),
      (get_reverse_geolocation lat lon resp tz).1.city.name =
        first_nonempty [resp.address.city, resp.address.village, resp.address.town,
          resp.address.hamlet, resp.address.county]) ∧
    (∀ (lat lon : Option String) (tz : TzFn),
      (get_reverse_geolocation lat lon
        { display_name := "X", address := { county := some "X" } } tz).1.city.name = "X") := by
  constructor
  · intro lat lon resp tz
    rw [first_nonempty_cons, first_nonempty_cons, first_nonempty_cons,
      first_nonempty_cons, first_nonempty_cons]
    rfl
  · intro lat lon tz
    rfl

/-- C6: when the offline timezone index is unavailable, `_get_timezone`
always succeeds with the statically configured timezone, or with UTC when
none is configured, whatever the coordinate arguments; the branch consults
only the configuration, never the network. -/
theorem c6_timezone_fallback (finder : String → String → Option String)
    (cfg : LocationConfig) (lat lon : Option String) :
    _get_timezone false finder cfg lat lon =
      Except.ok (cfg.timezone.getD { name := "UTC", code := "UTC" }) := rfl

/-- C7: for every hour of the day `get_time_period` returns exactly the
period name of the claimed boundary table, and nothing else. -/
theorem c7_time_period_boundaries :
    ∀ h : Fin 24,
      (get_time_period h.val = "early morning" ↔ 1 ≤ h.val ∧ h.val < 5) ∧
      (get_time_period h.val = "morning" ↔ 5 ≤ h.val ∧ h.val < 12) ∧
      (get_time_period h.val = "afternoon" ↔ 12 ≤ h.val ∧ h.val < 17) ∧
      (get_time_period h.val = "evening" ↔ 17 ≤ h.val ∧ h.val < 20) ∧
      (get_time_period h.val = "overnight" ↔ (h.val = 0 ∨ 20 ≤ h.val)) := by
  decide

/-- C9: every record produced by either path carries a timezone (the record
is constructed without the key, so the guard always fires and attaches one),
and consequently the facade's unconditional read of the timezone code never
raises a `KeyError`. -/
theorem c9_timezone_always_attached :
    (∀ (lat lon : Option String) (resp : ReverseResponse) (tz : TzFn),
      (get_reverse_geolocation lat lon resp tz).1.timezone.isSome = true) ∧
    (∀ (loc : String) (net : Network) (tz : TzFn) (r : LocationRecord),
      (_get_geolocation loc net tz).1 = Except.ok (some r) →
        r.timezone.isSome = true) ∧
    (∀ (loc : String) (net : Network) (tz : TzFn),
      (get_geolocation loc net tz).1 ≠ Except.error GeoError.keyError) := by
  refine ⟨?_, ?_, ?_⟩
  · intro lat lon resp tz
    rw [reverse_record_timezone]
    rfl
  · intro loc net tz r h
    rcases _get_geolocation_cases loc net tz with herr | ⟨s, hok, hsome⟩
    · rw [herr] at h
      simp at h
    · rw [hok] at h
      obtain rfl : s = r := by simpa using h
      exact hsome
  · intro loc net tz h
    rcases _get_geolocation_cases loc net tz with herr | ⟨s, hok, hsome⟩
    · simp only [get_geolocation] at h
      rw [herr] at h
      simp at h
    · rcases hs : s.timezone with _ | tzv
      · rw [hs] at hsome
        simp at hsome
      · simp only [get_geolocation] at h
        rw [hok] at h
        simp [hs] at h

/-- C9 witness: the invariant applied at a concrete coordinate-path input. -/
theorem c9_timezone_witness :
    (get_reverse_geolocation matchWithCoord.lat matchWithCoord.lon
      (netCoord.reverse matchWithCoord.lat matchWithCoord.lon) tzC).1.timezone.isSome = true :=
  c9_timezone_always_attached.2.1 "Kansas City" netCoord tzC
    (get_reverse_geolocation matchWithCoord.lat matchWithCoord.lon
      (netCoord.reverse matchWithCoord.lat matchWithCoord.lon) tzC).1
    (by rw [_get_geolocation_coord "Kansas City" netCoord tzC matchWithCoord [] rfl
      (by decide)])

/-- Behaviour of the modelled cache starting from empty: the first call at
`t₀` runs the underlying function and stores the result stamped `t₀`; a
repeat strictly within 600 seconds of insertion is served from the cache
without running it and leaves the state unchanged; a repeat at or past
`t₀ + 600` runs the underlying function again — even though the intermediate
hit happened, because validity is measured from insertion, not last
access. -/
theorem cachedCall_ttl {κ α : Type} [DecidableEq κ] (f : κ → α) (k : κ)
    (t₀ tmid t₁ : Nat) (hmid : tmid < t₀ + 600) (h₁ : t₀ + 600 ≤ t₁) :
    cachedCall f ⟨[]⟩ t₀ k = (f k, ⟨[(k, f k, t₀)]⟩, true) ∧
    cachedCall f ⟨[(k, f k, t₀)]⟩ tmid k = (f k, ⟨[(k, f k, t₀)]⟩, false) ∧
    (cachedCall f ⟨[(k, f k, t₀)]⟩ t₁ k).2.2 = true := by
  have l0 : TTLCache.lookup (⟨[]⟩ : TTLCache κ α) t₀ k = none := by
    simp [TTLCache.lookup]
  have l1 : TTLCache.lookup (⟨[(k, f k, t₀)]⟩ : TTLCache κ α) tmid k = some (f k) := by
    simp [TTLCache.lookup, List.find?, hmid]
  have hnot : ¬ t₁ < t₀ + 600 := by omega
  have l2 : TTLCache.lookup (⟨[(k, f k, t₀)]⟩ : TTLCache κ α) t₁ k = none := by
    simp [TTLCache.lookup, List.find?, hnot]
  refine ⟨?_, ?_, ?_⟩
  · simp [cachedCall, l0]
  · simp [cachedCall, l1]
  · simp [cachedCall, l2]

/-- C5 (the cache itself is modelled from the spec, see `TTLCache`): each
stage's results are cached per distinct input tuple for 600 seconds measured
from insertion: a repeated geolocation call with the same location text
within 600 seconds returns the cached record with no further network call,
a call at or past 600 seconds runs the pipeline (and its network calls)
again, and the reverse stage is independently cached the same way keyed on
the (lat, lon) pair. -/
theorem c5_cache_ttl (net : Network) (tz : TzFn) (loc : String)
    (lat lon : Option String) (t₀ tmid t₁ : Nat)
    (hmid : tmid < t₀ + 600) (h₁ : t₀ + 600 ≤ t₁) :
    (cachedCall (fun l => _get_geolocation l net tz) ⟨[]⟩ t₀ loc =
        (_get_geolocation loc net tz,
         ⟨[(loc, _get_geolocation loc net tz, t₀)]⟩, true) ∧
     cachedCall (fun l => _get_geolocation l net tz)
        ⟨[(loc, _get_geolocation loc net tz, t₀)]⟩ tmid loc =
        (_get_geolocation loc net tz,
         ⟨[(loc, _get_geolocation loc net tz, t₀)]⟩, false) ∧
     (cachedCall (fun l => _get_geolocation l net tz)
        ⟨[(loc, _get_geolocation loc net tz, t₀)]⟩ t₁ loc).2.2 = true) ∧
    (cachedCall (fun p : Option String × Option String =>
          get_reverse_geolocation p.1 p.2 (net.reverse p.1 p.2) tz) ⟨[]⟩ t₀ (lat, lon) =
        (get_reverse_geolocation lat lon (net.reverse lat lon) tz,
         ⟨[((lat, lon), get_reverse_geolocation lat lon (net.reverse lat lon) tz, t₀)]⟩, true) ∧
     cachedCall (fun p : Option String × Option String =>
          get_reverse_geolocation p.1 p.2 (net.reverse p.1 p.2) tz)
        ⟨[((lat, lon), get_reverse_geolocation lat lon (net.reverse lat lon) tz, t₀)]⟩
        tmid (lat, lon) =
        (get_reverse_geolocation lat lon (net.reverse lat lon) tz,
         ⟨[((lat, lon), get_reverse_geolocation lat lon (net.reverse lat lon) tz, t₀)]⟩, false) ∧
     (cachedCall (fun p : Option String × Option String =>
          get_reverse_geolocation p.1 p.2 (net.reverse p.1 p.2) tz)
        ⟨[((lat, lon), get_reverse_geolocation lat lon (net.reverse lat lon) tz, t₀)]⟩
        t₁ (lat, lon)).2.2 = true) :=
  ⟨cachedCall_ttl (fun l => _get_geolocation l net tz) loc t₀ tmid t₁ hmid h₁,
   cachedCall_ttl (fun p : Option String × Option String =>
      get_reverse_geolocation p.1 p.2 (net.reverse p.1 p.2) tz) (lat, lon) t₀ tmid t₁ hmid h₁⟩

/-- C5 witness: a hit at 500 and a post-expiry miss at 600, insertion at 0. -/
theorem c5_cache_witness :
    (cachedCall (fun l => _get_geolocation l netCoord tzC)
      ⟨[("Kansas City", _get_geolocation "Kansas City" netCoord tzC, 0)]⟩
      600 "Kansas City").2.2 = true ∧
    cachedCall (fun l => _get_geolocation l netCoord tzC)
      ⟨[("Kansas City", _get_geolocation "Kansas City" netCoord tzC, 0)]⟩
      500 "Kansas City" =
      (_get_geolocation "Kansas City" netCoord tzC,
       ⟨[("Kansas City", _get_geolocation "Kansas City" netCoord tzC, 0)]⟩, false) :=
  ⟨(c5_cache_ttl netCoord tzC "Kansas City" (some "1") (some "2") 0 500 600
      (by decide) (by decide)).1.2.2,
   (c5_cache_ttl netCoord tzC "Kansas City" (some "1") (some "2") 0 500 600
      (by decide) (by decide)).1.2.1⟩

/-- Unfolding: the empty list chunks to the empty list. -/
theorem chunk_list_nil {α : Type} (size : Nat) :
    chunk_list ([] : List α) size = [] := by
  rw [chunk_list.eq_def]
  by_cases h : size = 0
  · rw [if_pos h]
  · rw [if_neg h]
    rfl

/-- Unfolding: for a positive size a nonempty list contributes its first
`size` elements and recurses on the remainder. -/
theorem chunk_list_cons {α : Type} (a : α) (tl : List α) (size : Nat)
    (hs : size ≠ 0) :
    chunk_list (a :: tl) size =
      (a :: tl).take size :: chunk_list ((a :: tl).drop size) size := by
  rw [chunk_list.eq_def]
  rw [if_neg hs]
  rw [dif_neg (show ¬ ((a :: tl).isEmpty = true) by simp)]

/-- The partition properties of `chunk_list` for positive size. -/
theorem chunk_list_props {α : Type} (size : Nat) (hs : 0 < size) :
    ∀ it : List α,
      (chunk_list it size).flatten = it ∧
      (∀ c ∈ chunk_list it size, c ≠ [] ∧ c.length ≤ size) ∧
      (∀ c ∈ (chunk_list it size).dropLast, c.length = size) := by
  have hsz : size ≠ 0 := Nat.pos_iff_ne_zero.mp hs
  intro it
  generalize hn : it.length = n
  induction n using Nat.strong_induction_on generalizing it with
  | _ n ih =>
    cases it with
    | nil =>
      refine ⟨?_, ?_, ?_⟩ <;> simp [chunk_list_nil]
    | cons a tl =>
      rw [chunk_list_cons a tl size hsz]
      have hlt : ((a :: tl).drop size).length < n := by
        rw [← hn]
        simp only [List.length_drop, List.length_cons]
        omega
      obtain ⟨ih1, ih2, ih3⟩ := ih _ hlt ((a :: tl).drop size) rfl
      refine ⟨?_, ?_, ?_⟩
      · rw [List.flatten_cons, ih1, List.take_append_drop]
      · intro c hc
        rcases List.mem_cons.mp hc with rfl | hc
        · refine ⟨?_, ?_⟩
          · cases size with
            | zero => exact absurd rfl hsz
            | succ m => simp [List.take_succ_cons]
          · simp [List.length_take]
        · exact ih2 c hc
      · intro c hc
        cases hrest : chunk_list ((a :: tl).drop size) size with
        | nil =>
          rw [hrest] at hc
          simp at hc
        | cons r rs =>
          rw [hrest] at hc
          rw [List.dropLast_cons₂] at hc
          rcases List.mem_cons.mp hc with rfl | hc2
          · have hdrop : (a :: tl).drop size ≠ [] := by
              intro hd
              rw [hd, chunk_list_nil] at hrest
              exact List.cons_ne_nil r rs hrest.symm
            have hlen : size < (a :: tl).length := by
              by_contra hge
              push_neg at hge
              exact hdrop (List.drop_eq_nil_of_le hge)
            simp only [List.length_cons] at hlen
            simp [List.length_take]
            omega
          · rw [← hrest] at hc2
            exact ih3 c hc2

/-- C8: for every list and every positive chunk size, `chunk_list` partitions
the list in order: concatenating the chunks restores the list, every chunk is
nonempty of length at most the size, and every chunk except possibly the
last has length exactly the size; and the claim's two concrete examples
hold. -/
theorem c8_chunk_list_partition :
    (∀ {α : Type} (it : List α) (size : Nat), 0 < size →
      (chunk_list it size).flatten = it ∧
      (∀ c ∈ chunk_list it size, c ≠ [] ∧ c.length ≤ size) ∧
      (∀ c ∈ (chunk_list it size).dropLast, c.length = size)) ∧
    chunk_list [1, 2, 3, 4, 5] 2 = [[1, 2], [3, 4], [5]] ∧
    chunk_list ([] : List Nat) 3 = [] := by
  refine ⟨fun it size hs => chunk_list_props size hs it, ?_, chunk_list_nil 3⟩
  simp [chunk_list_cons, chunk_list_nil]

/-- C8 witness: the partition properties applied at the claim's example. -/
theorem c8_chunk_list_witness :
    0 < 2 ∧
    ((chunk_list [1, 2, 3, 4, 5] 2).flatten = [1, 2, 3, 4, 5] ∧
     (∀ c ∈ chunk_list [1, 2, 3, 4, 5] 2, c ≠ [] ∧ c.length ≤ 2) ∧
     (∀ c ∈ (chunk_list [1, 2, 3, 4, 5] 2).dropLast, c.length = 2)) :=
  ⟨by decide, c8_chunk_list_partition.1 [1, 2, 3, 4, 5] 2 (by decide)⟩

end WeatherSkill
